import Mathlib

/-!
# Verification of the rx-maybe core against its specification

Shallow embedding of the rx-maybe library (a deferred, at-most-one-value
asynchronous computation primitive).  Pure and stateful parts of the
JavaScript source are translated into executable Lean definitions:
the per-subscription `MaybeEmitter` (src/emitter.js) becomes a state
machine over an explicit cancellation flag, observers become records of
optional callbacks producing explicit event traces, and each operator's
`subscribeActual` becomes a step function over its coordination state.
-/

/-- A small model of JavaScript values, enough to distinguish `undefined`
(the protocol's "absent value"), `Error` instances (with their message),
and ordinary data. -/
inductive JSVal where
  | undef : JSVal
  | nil : JSVal
  | bool : Bool → JSVal
  | num : Int → JSVal
  | str : String → JSVal
  | errorObj : String → JSVal
  | pair : JSVal → JSVal → JSVal
deriving DecidableEq, Repr

/-- Returns true exactly for values that satisfy JavaScript's
`value instanceof Error` in this model. -/
def JSVal.isError : JSVal → Bool
  | .errorObj _ => true
  | _ => false

/-- A terminal signal of the Maybe protocol: exactly the three downstream
terminal callbacks `onSuccess`, `onComplete`, `onError`.  Used both for
events a source delivers and for events observed downstream. -/
inductive Sig where
  | success : JSVal → Sig
  | complete : Sig
  | error : JSVal → Sig
deriving DecidableEq, Repr

/-- Returns true exactly for error signals. -/
def Sig.isError : Sig → Bool
  | .error _ => true
  | _ => false

/-! ## MaybeEmitter (src/src/emitter.js)

The emitter holds three downstream callbacks (`success`, `complete`,
`error`) and a cancellation token (`linked`, by default a plain boolean
token).  We model the downstream callbacks as emission of `Sig` events,
and the emitter's observable state as the boolean cancellation state of
its token. -/

/-- The mutable state of a `MaybeEmitter`: whether its linked
cancellation token has been cancelled.  (`get cancelled` in the source
reads `this.linked.cancelled`; the default token is a
`BooleanCancellable`.) -/
structure EmitterState where
  cancelled : Bool
deriving DecidableEq, Repr

/-- A call into the emitter's public methods. -/
inductive ECall where
  | onSuccess : JSVal → ECall
  | onComplete : ECall
  | onError : JSVal → ECall
  | cancel : ECall
deriving DecidableEq, Repr

/-- Coercion performed by `MaybeEmitter.onError`: it coerces any non-`Error` argument into a
standardized `Error` before delivery (src/src/emitter.js lines 121-124). -/
def coerceError (e : JSVal) : JSVal :=
  if e.isError then e else .errorObj "onError called with a non-Error value."

/-- One call into the emitter, mirroring src/src/emitter.js:
* `onComplete` (lines 84-93): if cancelled, return; else call the
  downstream `complete` callback, then self-cancel (`finally`).
* `onSuccess` (lines 100-113): if cancelled, return; else if the value is
  `undefined`, call the downstream `error` callback with a protocol
  violation `Error`, otherwise the `success` callback; then self-cancel.
* `onError` (lines 120-133): coerce the argument, then if cancelled
  return, else call the downstream `error` callback and self-cancel.
* `cancel` (lines 48-54): if not yet cancelled, cancel the linked token
  (the registered cancel event handlers invoke no terminal callback).
Returns the new state and the downstream terminal callbacks invoked. -/
def emitterStep (s : EmitterState) : ECall → EmitterState × List Sig
  | .onComplete =>
    if s.cancelled then (s, []) else (⟨true⟩, [.complete])
  | .onSuccess v =>
    if s.cancelled then (s, [])
    else (⟨true⟩,
      if v = .undef then [.error (.errorObj "onSuccess called with a null value.")]
      else [.success v])
  | .onError e =>
    if s.cancelled then (s, []) else (⟨true⟩, [.error (coerceError e)])
  | .cancel => (⟨true⟩, [])

/-- Run a sequence of calls against the emitter, accumulating the
downstream terminal callbacks invoked. -/
def emitterRun (s : EmitterState) : List ECall → EmitterState × List Sig
  | [] => (s, [])
  | c :: cs =>
    let r := emitterStep s c
    let r' := emitterRun r.1 cs
    (r'.1, r.2 ++ r'.2)

/-- A fresh emitter (its default `BooleanCancellable` is not cancelled). -/
def emitterInit : EmitterState := ⟨false⟩

/-! ## Observers

A MaybeObserver is a JavaScript object with a mandatory `onSubscribe`
method and up to three optional terminal callbacks (src/unnamed/part_004
lines 758-767).  Callbacks are modelled as producers of abstract effect
events of a type `α`; an absent callback is `none`. -/

/-- A MaybeObserver: optional callbacks producing effect traces.
`onSubscribe` is modelled by the effects of calling it (the token
argument delivers no terminal callback and is elided). -/
structure Obs (α : Type) where
  onSubscribe : Option (List α)
  onSuccess : Option (JSVal → List α)
  onComplete : Option (List α)
  onError : Option (JSVal → List α)

/-- Modelled from the spec: `cleanObserver` (src/internal/utils, absent
from src/) defaults a fully absent `onSuccess` callback to a no-op
(spec §3: "a fully absent callback defaults to a no-op"). -/
def cleanOnSuccess (o : Obs α) (v : JSVal) : List α :=
  match o.onSuccess with
  | some f => f v
  | none => []

/-- Modelled from the spec: `cleanObserver` defaulting for `onComplete`. -/
def cleanOnComplete (o : Obs α) : List α := o.onComplete.getD []

/-- Modelled from the spec: `cleanObserver` defaulting for `onError`. -/
def cleanOnError (o : Obs α) (e : JSVal) : List α :=
  match o.onError with
  | some f => f e
  | none => []

/-- Modelled from the spec: `cleanObserver` defaulting for `onSubscribe`. -/
def cleanOnSubscribe (o : Obs α) : List α := o.onSubscribe.getD []

/-- Delivery of one terminal signal to an observer through the
`cleanObserver` defaulting: the signal is routed to the matching
callback slot, and a missing callback is a no-op. -/
def deliverClean (o : Obs α) : Sig → List α
  | .success v => cleanOnSuccess o v
  | .complete => cleanOnComplete o
  | .error e => cleanOnError o e

/-! ## The Maybe denotation used by operator factories

For the assembly-time claims we represent a Maybe by the sequence of
terminal signals it delivers to a subscriber (its denotation); a
well-behaved source delivers at most one. -/

/-- A Maybe, represented by the terminal signals it delivers in order to
an observer once subscribed. -/
structure MaybeM where
  den : List Sig
deriving DecidableEq, Repr

/-- Modelled from the spec: `just(value)` (absent from src/) "Returns a
Maybe that emits a specified item": it delivers one success signal. -/
def justM (v : JSVal) : MaybeM := ⟨[.success v]⟩

/-- Modelled from the spec: `empty()` (its factory is in
src/unnamed/part_003 lines 136-149 via `immediateComplete`, the utils
helper absent from src/) delivers one empty-completion signal. -/
def emptyM : MaybeM := ⟨[.complete]⟩

/-- Modelled from the spec: `error(err)` (absent from src/) "invokes a
subscriber's onError method when the subscriber subscribes to it". -/
def errorM (e : JSVal) : MaybeM := ⟨[.error e]⟩

/-- Subscribing an observer to a Maybe: the `onSubscribe` handshake runs
first, then each terminal signal is delivered through the
`cleanObserver` defaulting. -/
def subscribeM (m : MaybeM) (o : Obs α) : List α :=
  cleanOnSubscribe o ++ (m.den.map (deliverClean o)).join

/-! ## Maybe.subscribe and Maybe.toPromise (src/unnamed/part_004)

`subscribe(onSuccess, onComplete, onError)` (lines 802-813) wraps the
three optional callbacks into an observer whose `onSubscribe` links the
returned controller (no terminal callback), and calls `subscribeWith`.
`toPromise()` (lines 821-825) is `new Promise((res, rej) =>
this.subscribe(res, rej))`: `res` fills the first parameter
(`onSuccess`), `rej` fills the second (`onComplete`), and the third
(`onError`) is left undefined. -/

/-- A Promise settlement event. -/
inductive PEvent where
  | resolve : Option JSVal → PEvent
  | reject : Option JSVal → PEvent
deriving DecidableEq, Repr

/-- The observer built by `Maybe.subscribe` from three optional
callbacks (src/unnamed/part_004 lines 802-813). -/
def subscribeObserver (onSuccess : Option (JSVal → List α))
    (onComplete : Option (List α)) (onError : Option (JSVal → List α)) : Obs α :=
  { onSubscribe := some [], onSuccess := onSuccess, onComplete := onComplete, onError := onError }

/-- The observer that `Maybe.toPromise` effectively subscribes with:
`this.subscribe(res, rej)` passes the Promise resolver as `onSuccess`
and the Promise rejecter as `onComplete`, leaving `onError` undefined
(src/unnamed/part_004 lines 821-825). -/
def toPromiseObserver : Obs PEvent :=
  subscribeObserver (some fun v => [.resolve (some v)]) (some [.reject none]) none

/-- How `toPromise`'s Promise is settled by the first terminal signal of
the underlying Maybe. -/
def toPromiseSettle (s : Sig) : List PEvent := deliverClean toPromiseObserver s

/-- The mapping the specification claims for the Promise interop:
success resolves with the value, error rejects with the error, empty
completion resolves with no value (spec §6). -/
def specPromiseSettle : Sig → List PEvent
  | .success v => [.resolve (some v)]
  | .error e => [.reject (some e)]
  | .complete => [.resolve none]

/-! ## doOnSubscribe (src/src/internal/operators/doOnSubscribe.js)

Its `subscribeActual` destructures only `onSuccess`, `onError` and
`onSubscribe` from `cleanObserver(observer)` and subscribes upstream
with an object carrying only those three members — no `onComplete`. -/

/-- The observer that `doOnSubscribe` passes upstream: the consumer runs
inside `onSubscribe` before the downstream handshake; `onSuccess` and
`onError` pass through; there is no `onComplete` member
(src/src/internal/operators/doOnSubscribe.js lines 7-22). -/
def doOnSubscribeInnerObs (d : Obs α) (consumer : List α) : Obs α :=
  { onSubscribe := some (consumer ++ cleanOnSubscribe d),
    onSuccess := some (cleanOnSuccess d),
    onComplete := none,
    onError := some (cleanOnError d) }

/-! ## Maybe.subscribeWith (src/unnamed/part_004 lines 775-779)

`subscribeWith(observer)` guards the subscription behind `isObserver`:
`if (isObserver(observer)) this.subscribeActual.call(this, observer);`
and otherwise does nothing. -/

/-- An arbitrary JavaScript argument passed to `subscribeWith`: either
an object with observer-like members or a non-object value. -/
inductive SubArg (α : Type) where
  | observerLike : Obs α → SubArg α
  | nonObject : JSVal → SubArg α

/-- Modelled from the spec: `isObserver` (src/internal/utils, absent
from src/).  Per the documented shape (src/unnamed/part_004 lines
758-767 and spec §9), an object is an Observer iff it has the
`onSubscribe` method; the other members are optional. -/
def isObserver : SubArg α → Bool
  | .observerLike o => o.onSubscribe.isSome
  | .nonObject _ => false

/-- `Maybe.subscribeWith` (src/unnamed/part_004 lines 775-779): invokes
`subscribeActual` only when the argument passes `isObserver`; otherwise
it is a no-op.  Returns whether `subscribeActual` was invoked and the
effects delivered. -/
def subscribeWith (m : MaybeM) : SubArg α → Bool × List α
  | .observerLike o =>
    if o.onSubscribe.isSome then (true, subscribeM m o) else (false, [])
  | .nonObject _ => (false, [])

/-! ## lift (src/unnamed/part_002 lines 7-36)

`lift`'s `subscribeActual` calls `this.operator(observer)` inside a
`try`; if the call throws, or its result fails `isObserver`, the caught
error is delivered to the original downstream observer through
`immediateError` and the upstream is never subscribed; otherwise the
upstream is subscribed with the returned observer. -/

/-- Modelled from the spec: `immediateError` (src/internal/utils, absent
from src/) performs an immediate errored transition on an observer
(spec §4.1): the `onSubscribe` handshake runs, then the error is
delivered to the observer's `onError` (a missing callback defaulting to
a no-op). -/
def immediateError (o : Obs α) (e : JSVal) : List α :=
  cleanOnSubscribe o ++ cleanOnError o e

/-- Modelled from the spec: `immediateComplete` (src/internal/utils,
absent from src/) performs an immediate empty-completion transition:
the `onSubscribe` handshake runs, then `onComplete` is delivered. -/
def immediateComplete (o : Obs α) : List α :=
  cleanOnSubscribe o ++ cleanOnComplete o

/-- What a lift operator function returns when it does not throw:
either a value satisfying the Observer shape or one failing it. -/
inductive OpResult (α : Type) where
  | obs : Obs α → OpResult α
  | notObs : JSVal → OpResult α

/-- The two possible outcomes of `lift`'s `subscribeActual`: an
immediate error delivery to the original downstream observer with no
upstream subscription, or an upstream subscription with the operator's
returned observer. -/
inductive LiftOutcome (α : Type) where
  | errored : List α → LiftOutcome α
  | subscribed : Obs α → LiftOutcome α

/-- `lift`'s `subscribeActual` (src/unnamed/part_002 lines 7-22): call
the operator on the downstream observer; a throw (`Except.error`) or a
non-Observer result routes through `immediateError` and returns without
subscribing upstream; otherwise the upstream is subscribed with the
result. -/
def liftSubscribeActual (operator : Obs α → Except JSVal (OpResult α))
    (observer : Obs α) : LiftOutcome α :=
  match operator observer with
  | .error e => .errored (immediateError observer e)
  | .ok (.notObs _) =>
    .errored (immediateError observer (.errorObj "Maybe.lift: operator returned a non-Observer."))
  | .ok (.obs result) => .subscribed result

/-! ## compose (src/src/internal/operators/compose.js)

`compose` runs at assembly time: if the transformer is not a function
it returns the source; otherwise it applies the transformer to the
source once inside a `try`, degrades a throw or a non-Maybe result to
an error-emitting Maybe, and returns the resulting Maybe. -/

/-- What a transformer returns when it does not throw: a Maybe or a
value failing the `is` (instanceof Maybe) check. -/
inductive TransResult where
  | maybe : MaybeM → TransResult
  | notMaybe : JSVal → TransResult
deriving DecidableEq, Repr

/-- `compose` (src/src/internal/operators/compose.js lines 9-27): a
non-function transformer returns the source unchanged; otherwise
`transformer(source)` is evaluated once, a throw or a non-Maybe result
is replaced by `error(e)`, and the result is returned.  (`isFunction`
is modelled by `Option`, `is` by `TransResult`, and the `error` factory
by `errorM`; all three utils are absent from src/.) -/
def compose (source : MaybeM)
    (transformer : Option (MaybeM → Except JSVal TransResult)) : MaybeM :=
  match transformer with
  | none => source
  | some f =>
    match f source with
    | .error e => errorM e
    | .ok (.notMaybe _) => errorM (.errorObj "Maybe.compose: transformer returned a non-Maybe.")
    | .ok (.maybe m) => m

/-! ## zipWith (src/unnamed/part_003 lines 8-129)

`zipWith`'s `subscribeActual` hands the downstream a fresh controller,
then subscribes to `source` and `other` with inner observers sharing the
controller and two per-side slots `SA`, `SB` (presence tested with
`typeof !== 'undefined'`).  Each side's token is wired to abort when the
controller aborts.  We model the coordination as a step function over
this shared state, driven by the terminal signals the two sides deliver;
each side delivers through its own emitter, which skips delivery once
its token is aborted and self-cancels after its first delivery (spec
§4.2, src/src/emitter.js). -/

/-- Which of the two zipped sources an event comes from: `A` is
`source`, `B` is `other`. -/
inductive Side where
  | A : Side
  | B : Side
deriving DecidableEq, Repr

/-- The shared coordination state of one `zipWith` subscription:
the two value slots, the downstream controller's abort flag, and the
abort flags of the two sides' tokens. -/
structure ZipState where
  SA : Option JSVal
  SB : Option JSVal
  ctrlAborted : Bool
  acA : Bool
  acB : Bool
deriving DecidableEq, Repr

/-- State after `onSubscribe(controller)` with a downstream that does
not cancel during the handshake, and both sides subscribed. -/
def zipInit : ZipState := ⟨none, none, false, false, false⟩

/-- The effect of `controller.abort()`: the registered abort listeners
cancel both sides' tokens. -/
def zipAbort (s : ZipState) : ZipState :=
  { s with ctrlAborted := true, acA := true, acB := true }

/-- A zipper function; `Except.error` models a thrown exception. -/
def Zipper : Type := JSVal → JSVal → Except JSVal JSVal

/-- The default zipper `(x, y) => [x, y]` (src/unnamed/part_003 line
8), its two-element array rendered as a pair. -/
def defaultZipper : Zipper := fun x y => .ok (.pair x y)

/-- The zip-completion computation (src/unnamed/part_003 lines 47-62
and 89-104): call the zipper in a `try`; a throw, or an `undefined`
result, is delivered as an error, otherwise the result is delivered as
success. -/
def zipPair (z : Zipper) (a b : JSVal) : Sig :=
  match z a b with
  | .error e => .error e
  | .ok r =>
    if r = .undef then
      .error (.errorObj "Maybe.zipWith: zipper function returned an undefined value.")
    else .success r

/-- One inner-observer callback of `zipWith` (src/unnamed/part_003 lines
32-110), given the side and the terminal signal that side delivers:
* a side's `onSuccess` returns if the controller is aborted, else fills
  its slot; if the other slot is filled it delivers `zipPair` downstream
  and aborts the controller;
* a side's `onComplete` delivers completion downstream and aborts;
* a side's `onError` delivers the error downstream and aborts.
Returns the new state and the downstream terminal callbacks invoked. -/
def zipStep (z : Zipper) (s : ZipState) : Side × Sig → ZipState × List Sig
  | (.A, .success x) =>
    if s.ctrlAborted then (s, [])
    else
      match s.SB with
      | some b => (zipAbort { s with SA := some x }, [zipPair z x b])
      | none => ({ s with SA := some x }, [])
  | (.A, .complete) => (zipAbort s, [.complete])
  | (.A, .error e) => (zipAbort s, [.error e])
  | (.B, .success x) =>
    if s.ctrlAborted then (s, [])
    else
      match s.SA with
      | some a => (zipAbort { s with SB := some x }, [zipPair z a x])
      | none => ({ s with SB := some x }, [])
  | (.B, .complete) => (zipAbort s, [.complete])
  | (.B, .error e) => (zipAbort s, [.error e])

/-- Whether the given side's token is aborted. -/
def sideAborted (s : ZipState) : Side → Bool
  | .A => s.acA
  | .B => s.acB

/-- Cancel the given side's token (the side's emitter self-cancels
after delivering a terminal signal, spec §4.2). -/
def sideCancel (s : ZipState) : Side → ZipState
  | .A => { s with acA := true }
  | .B => { s with acB := true }

/-- Run a sequence of side-tagged terminal signals through the zip
coordination.  Modelled from the spec for the sides' delivery
discipline (§4.2): a side whose token is already aborted delivers
nothing (its emitter checks cancellation before delivering), and a side
self-cancels once it has delivered. -/
def zipRun (z : Zipper) (s : ZipState) : List (Side × Sig) → ZipState × List Sig
  | [] => (s, [])
  | ev :: rest =>
    if sideAborted s ev.1 then zipRun z s rest
    else
      let r := zipStep z s ev
      let r' := zipRun z (sideCancel r.1 ev.1) rest
      (r'.1, r.2 ++ r'.2)

/-! ## The zipWith factory (src/unnamed/part_003 lines 115-129)

`(source, other, zipper) => ...` returns `source` unchanged when
`other` is not a `Maybe` instance; otherwise it builds the zip Maybe,
substituting `defaultZipper` for a non-function zipper. -/

/-- The `other` argument handed to the `zipWith` factory: a Maybe
instance or any other JavaScript value. -/
inductive MaybeArg where
  | maybe : MaybeM → MaybeArg
  | notMaybe : JSVal → MaybeArg

/-- The `zipWith` factory (src/unnamed/part_003 lines 115-129): a
non-Maybe `other` returns `source` unchanged; a non-function zipper
(modelled by `none`) is replaced by `defaultZipper`; otherwise the
resulting Maybe's subscription runs the zip coordination over `source`'s
signals (subscribed first) followed by `other`'s. -/
def zipWithFactory (source : MaybeM) (other : MaybeArg) (zipper : Option Zipper) : MaybeM :=
  match other with
  | .notMaybe _ => source
  | .maybe m =>
    ⟨(zipRun (zipper.getD defaultZipper) zipInit
        (source.den.map (fun sg => (Side.A, sg)) ++ m.den.map (fun sg => (Side.B, sg)))).2⟩

/-! ## subscribeOn (src/src/internal/operators/subscribeOn.js)

Its `subscribeActual` creates a controller, hands it downstream
synchronously, and schedules the upstream subscription; the scheduled
callback is skipped entirely if the controller is already aborted, and
otherwise subscribes upstream with an observer whose `onSubscribe`
registers a one-way listener: when the wrapper's signal aborts, the
upstream's token is aborted. -/

/-- The cancellation wiring state of one `subscribeOn` subscription:
the wrapper's controller, the upstream's token, and whether the
scheduled upstream subscription has run (creating the upstream token
and registering the abort listener). -/
structure SubOnState where
  wrapperAborted : Bool
  upstreamAborted : Bool
  linked : Bool
deriving DecidableEq, Repr

/-- State right after `onSubscribe(controller)` with a downstream that
does not cancel during the handshake: nothing aborted, upstream not yet
subscribed. -/
def subOnInit : SubOnState := ⟨false, false, false⟩

/-- The scheduled callback (src/src/internal/operators/subscribeOn.js
lines 22-43): skipped when the wrapper's signal is already aborted;
otherwise the upstream subscription runs and its `onSubscribe` registers
the abort listener from the wrapper's signal to the upstream token. -/
def subOnRunTask (s : SubOnState) : SubOnState :=
  if s.wrapperAborted then s else { s with linked := true }

/-- Cancelling the wrapper's token: the registered listener (if the
upstream token exists) aborts the upstream's token. -/
def subOnCancelWrapper (s : SubOnState) : SubOnState :=
  { s with wrapperAborted := true, upstreamAborted := s.upstreamAborted || s.linked }

/-- Cancelling the upstream's token directly: no listener runs in the
other direction (the code registers none), so the wrapper's token is
untouched. -/
def subOnCancelUpstream (s : SubOnState) : SubOnState :=
  { s with upstreamAborted := true }

/-- A concrete zipper adding two numbers, `(a, b) => a + b` on numeric
inputs (spec §8's example zipper). -/
def addZipper : Zipper := fun x y =>
  match x, y with
  | .num m, .num n => .ok (.num (m + n))
  | _, _ => .ok .undef

theorem emitterStep_cancelled (c : ECall) : emitterStep ⟨true⟩ c = (⟨true⟩, []) := by
  cases c <;> rfl

theorem emitterRun_cancelled (cs : List ECall) : emitterRun ⟨true⟩ cs = (⟨true⟩, []) := by
  induction cs with
  | nil => rfl
  | cons c cs ih => simp [emitterRun, emitterStep_cancelled, ih]

theorem emitterStep_state (s : EmitterState) (c : ECall) :
    (emitterStep s c).1 = s ∨ (emitterStep s c).1 = ⟨true⟩ := by
  cases c <;> simp [emitterStep] <;> split <;> simp

/-- C1: Only the first terminal call delivers a downstream callback:
from a cancelled emitter every call sequence delivers nothing; from a
fresh emitter at most one downstream callback ever fires, a leading
`onSuccess`/`onComplete`/`onError` call delivers exactly its own
callback and suppresses all later calls, and a leading `cancel`
suppresses everything. -/
theorem emitter_first_terminal_wins :
    (∀ cs : List ECall, (emitterRun ⟨true⟩ cs).2 = []) ∧
    (∀ cs : List ECall, ((emitterRun emitterInit cs).2).length ≤ 1) ∧
    (∀ (v : JSVal) (cs : List ECall),
      (emitterRun emitterInit (.onSuccess v :: cs)).2 = (emitterStep emitterInit (.onSuccess v)).2) ∧
    (∀ cs : List ECall,
      (emitterRun emitterInit (.onComplete :: cs)).2 = [.complete]) ∧
    (∀ (e : JSVal) (cs : List ECall),
      (emitterRun emitterInit (.onError e :: cs)).2 = [.error (coerceError e)]) ∧
    (∀ cs : List ECall, (emitterRun emitterInit (.cancel :: cs)).2 = []) := by
  refine ⟨fun cs => by simp [emitterRun_cancelled], ?_, ?_, ?_, ?_, ?_⟩
  · intro cs
    cases cs with
    | nil => simp [emitterRun]
    | cons c cs =>
      cases c <;>
        simp [emitterRun, emitterStep, emitterInit, emitterRun_cancelled] <;>
        split <;> simp
  · intro v cs
    simp [emitterRun, emitterStep, emitterInit, emitterRun_cancelled]
  · intro cs
    simp [emitterRun, emitterStep, emitterInit, emitterRun_cancelled]
  · intro e cs
    simp [emitterRun, emitterStep, emitterInit, emitterRun_cancelled]
  · intro cs
    simp [emitterRun, emitterStep, emitterInit, emitterRun_cancelled]

/-- C2: On a non-cancelled emitter, `onSuccess(undefined)` invokes the
downstream error callback exactly once with the protocol-violation
`Error`, invokes neither the success nor the complete callback, and
leaves the emitter cancelled. -/
theorem emitter_undefined_success (s : EmitterState) (h : s.cancelled = false) :
    emitterStep s (.onSuccess .undef) =
      (⟨true⟩, [.error (.errorObj "onSuccess called with a null value.")]) := by
  cases s
  simp_all [emitterStep]

theorem emitter_undefined_success_witness :
    emitterStep emitterInit (.onSuccess .undef) =
      (⟨true⟩, [.error (.errorObj "onSuccess called with a null value.")]) :=
  emitter_undefined_success emitterInit rfl

/-- C3: the Promise conversion does not realize the claimed resolve/reject
mapping.  Evaluating the code's wiring: a success value does resolve the
Promise with that value, but an empty completion rejects the Promise
(with no value) because `toPromise` passes the rejecter as `subscribe`'s
`onComplete` parameter, and an error settles nothing at all because the
`onError` slot is left undefined and defaults to a no-op. -/
theorem toPromise_divergence :
    (∀ v : JSVal, toPromiseSettle (.success v) = [.resolve (some v)]) ∧
    toPromiseSettle .complete = [.reject none] ∧
    toPromiseSettle (.error (.errorObj "E")) = [] ∧
    toPromiseSettle .complete ≠ specPromiseSettle .complete ∧
    toPromiseSettle (.error (.errorObj "E")) ≠ specPromiseSettle (.error (.errorObj "E")) := by
  refine ⟨fun v => rfl, rfl, rfl, by decide, by decide⟩

/-- C9: the observer `doOnSubscribe` passes upstream has no `onComplete`
member, so an empty completion of the source delivers no downstream
terminal callback at all (the completion is silently dropped), while
success and error signals pass through to the downstream observer. -/
theorem doOnSubscribe_drops_completion (α : Type) (d : Obs α) (consumer : List α) :
    (doOnSubscribeInnerObs d consumer).onComplete = none ∧
    deliverClean (doOnSubscribeInnerObs d consumer) .complete = [] ∧
    (∀ v, deliverClean (doOnSubscribeInnerObs d consumer) (.success v) = cleanOnSuccess d v) ∧
    (∀ e, deliverClean (doOnSubscribeInnerObs d consumer) (.error e) = cleanOnError d e) := by
  refine ⟨rfl, rfl, fun v => rfl, fun e => rfl⟩

/-- C10: `subscribeWith` on any argument that fails the `isObserver`
shape check is a silent no-op: `subscribeActual` is not invoked and no
callback effect of any kind is produced. -/
theorem subscribeWith_nonObserver (α : Type) (m : MaybeM) (arg : SubArg α)
    (h : isObserver arg = false) :
    subscribeWith m arg = (false, []) := by
  cases arg with
  | observerLike o =>
    simp [isObserver] at h
    simp [subscribeWith, h]
  | nonObject v => rfl

theorem subscribeWith_nonObserver_witness :
    subscribeWith (justM (.num 1)) (SubArg.nonObject (α := Sig) .nil) = (false, []) :=
  subscribeWith_nonObserver Sig (justM (.num 1)) (SubArg.nonObject .nil) rfl

/-- C7: for a Maybe built with `lift(operator)`, if at subscription time
the operator throws, or returns a value failing the Observer shape
check, an error is delivered immediately to the original downstream
observer and the upstream is never subscribed; otherwise the upstream
is subscribed with the operator's returned observer. -/
theorem lift_fail_fast (α : Type) (operator : Obs α → Except JSVal (OpResult α))
    (observer : Obs α) :
    (∀ e, operator observer = .error e →
      liftSubscribeActual operator observer = .errored (immediateError observer e)) ∧
    (∀ v, operator observer = .ok (.notObs v) →
      liftSubscribeActual operator observer =
        .errored (immediateError observer
          (.errorObj "Maybe.lift: operator returned a non-Observer."))) ∧
    (∀ r, operator observer = .ok (.obs r) →
      liftSubscribeActual operator observer = .subscribed r) := by
  refine ⟨fun e h => ?_, fun v h => ?_, fun r h => ?_⟩ <;>
    simp [liftSubscribeActual, h]

theorem lift_fail_fast_witness :
    liftSubscribeActual (α := Sig) (fun _ => .error (.errorObj "boom"))
      ⟨some [], none, none, some fun e => [.error e]⟩ =
      .errored [.error (.errorObj "boom")] :=
  (lift_fail_fast Sig (fun _ => .error (.errorObj "boom"))
    ⟨some [], none, none, some fun e => [.error e]⟩).1 (.errorObj "boom") rfl

/-- C8: `compose` applies its transformer once at assembly time — the
result is fully determined by the single value `transformer(source)` —
and if the transformer throws or returns a non-Maybe, the caller
receives an error-emitting Maybe carrying that exception instead of a
re-thrown exception. -/
theorem compose_assembly_degrade (source : MaybeM)
    (f : MaybeM → Except JSVal TransResult) :
    (∀ e, f source = .error e →
      compose source (some f) = errorM e ∧ (compose source (some f)).den = [.error e]) ∧
    (∀ v, f source = .ok (.notMaybe v) →
      compose source (some f) =
        errorM (.errorObj "Maybe.compose: transformer returned a non-Maybe.")) ∧
    (∀ m, f source = .ok (.maybe m) → compose source (some f) = m) ∧
    (∀ g : MaybeM → Except JSVal TransResult, f source = g source →
      compose source (some f) = compose source (some g)) := by
  refine ⟨fun e h => ?_, fun v h => ?_, fun m h => ?_, fun g h => ?_⟩ <;>
    simp [compose, h, errorM]

theorem compose_assembly_degrade_witness :
    compose (justM (.num 7)) (some fun _ => .ok (.notMaybe .nil)) =
      errorM (.errorObj "Maybe.compose: transformer returned a non-Maybe.") :=
  (compose_assembly_degrade (justM (.num 7)) (fun _ => .ok (.notMaybe .nil))).2.1 .nil rfl

/-- C4: zipWith semantics.  When both sides succeed (in either order)
with a zipper that neither throws nor returns `undefined`, the
downstream receives exactly one success carrying `zipper(a, b)` and both
tokens end cancelled.  When either side completes empty — whether first
or after the other side's success — the downstream completes empty
immediately, the other side's token is cancelled, and any later signal
from the other side is suppressed.  When either side errors with `E`,
the downstream errors with `E` immediately (without waiting for the
second value), the other side's token is cancelled, and any later signal
from the other side is suppressed. -/
theorem zipWith_semantics (z : Zipper) (a b r e : JSVal)
    (hz : z a b = .ok r) (hr : r ≠ JSVal.undef) :
    ((zipRun z zipInit [(.A, .success a), (.B, .success b)]).2 = [.success r] ∧
      (zipRun z zipInit [(.A, .success a), (.B, .success b)]).1.acA = true ∧
      (zipRun z zipInit [(.A, .success a), (.B, .success b)]).1.acB = true) ∧
    (zipRun z zipInit [(.B, .success b), (.A, .success a)]).2 = [.success r] ∧
    (∀ sg : Sig, (zipRun z zipInit [(.A, .complete), (.B, sg)]).2 = [.complete] ∧
      (zipRun z zipInit [(.A, .complete), (.B, sg)]).1.acB = true) ∧
    ((zipRun z zipInit [(.A, .success a), (.B, .complete)]).2 = [.complete] ∧
      (zipRun z zipInit [(.A, .success a), (.B, .complete)]).1.acA = true) ∧
    (∀ sg : Sig, (zipRun z zipInit [(.B, .error e), (.A, sg)]).2 = [.error e] ∧
      (zipRun z zipInit [(.B, .error e), (.A, sg)]).1.acA = true) ∧
    ((zipRun z zipInit [(.A, .success a), (.B, .error e)]).2 = [.error e] ∧
      (zipRun z zipInit [(.A, .success a), (.B, .error e)]).1.acA = true) := by
  refine ⟨⟨?_, ?_, ?_⟩, ?_, fun sg => ⟨?_, ?_⟩, ⟨?_, ?_⟩, fun sg => ⟨?_, ?_⟩, ⟨?_, ?_⟩⟩ <;>
    simp [zipRun, zipStep, zipInit, zipAbort, zipPair, sideAborted, sideCancel, hz, hr]

theorem zipWith_semantics_witness :
    (zipRun addZipper zipInit [(.A, .success (.num 1)), (.B, .success (.num 2))]).2 =
      [.success (.num 3)] :=
  ((zipWith_semantics addZipper (.num 1) (.num 2) (.num 3) (.errorObj "E") rfl
    (by decide)).1).1

/-- C5 counterexample: with the upstream subscribed and its token linked
(the scheduled task has run), cancelling the upstream's token directly
leaves the wrapper's token uncancelled — the link is not bidirectional
as claimed. -/
theorem subscribeOn_not_bidirectional :
    (subOnCancelUpstream (subOnRunTask subOnInit)).upstreamAborted = true ∧
    (subOnCancelUpstream (subOnRunTask subOnInit)).wrapperAborted = false := by
  decide

/-- C5 (amended): the link is unidirectional.  Once the upstream's token
is created and linked, cancelling the wrapper's token cancels the
upstream's token; cancelling the upstream's token directly never changes
the wrapper's token. -/
theorem subscribeOn_unidirectional (s : SubOnState) :
    (s.linked = true → (subOnCancelWrapper s).upstreamAborted = true) ∧
    (subOnCancelUpstream s).wrapperAborted = s.wrapperAborted ∧
    (subOnCancelUpstream s).upstreamAborted = true := by
  refine ⟨fun h => ?_, rfl, rfl⟩
  simp [subOnCancelWrapper, h]

theorem subscribeOn_unidirectional_witness :
    (subOnCancelWrapper (subOnRunTask subOnInit)).upstreamAborted = true :=
  (subscribeOn_unidirectional (subOnRunTask subOnInit)).1 rfl

/-- C6 counterexample: `zipWith(just(1), 5)` — a combinator given a
non-Maybe `other` — returns the source unchanged, so subscribing it
delivers the source's success and funnels no protocol-violation error
into the downstream `onError` channel. -/
theorem zipWith_nonMaybe_no_error :
    (zipWithFactory (justM (.num 1)) (.notMaybe (.num 5)) none).den = [.success (.num 1)] ∧
    ((zipWithFactory (justM (.num 1)) (.notMaybe (.num 5)) none).den.any Sig.isError) = false := by
  decide

/-- C6 (amended): the `zipWith` factory given a non-Maybe `other`
returns the source Maybe unchanged (no error is reported and no zip
coordination is built). -/
theorem zipWith_nonMaybe_returns_source (source : MaybeM) (v : JSVal)
    (zipper : Option Zipper) :
    zipWithFactory source (.notMaybe v) zipper = source := rfl
